import Mathlib

/-!
Verification of the resume-parser coordination layer.

The definitions below are a shallow embedding of the Python sources:
  * `field_extractor.py` — `GeminiFieldExtractor._call_with_retry`, the
    code-fence stripping step of `extract`, and `CombinedExtractor.extract`
    key validation;
  * `text_verifier.py` — `TextVerifier.verify` and `VerificationResult`;
  * `file_parser.py` — `FileParser.parse_resume` dispatch and the
    verification gate;
  * `resume_extractor.py` — `ResumeExtractor.extract` defaulting behaviour.

Python strings are modelled as `List Char`; machine floats appearing only
as the backoff delay (5.0, doubled) and the printable-ratio threshold (0.8)
are modelled exactly (the involved values are small integers / exact
rationals, where binary floating point agrees).
-/

/-! ### Remote call with retry (`field_extractor.py`, `_call_with_retry`) -/

/-- Outcome of one `self._client.models.generate_content` attempt:
either a response carrying text, or one of the exception classes caught
by `_call_with_retry` (`genai_errors.ClientError` with its `code`,
`genai_errors.ServerError`, `OSError`). -/
inductive CallOutcome where
  | success (text : String)
  | clientError (code : Nat)
  | serverError
  | osError
deriving DecidableEq, Repr

/-- The `ConnectionError`s `_call_with_retry` can raise, one constructor per
raise site:
  * `geminiApiError code` — line 138, "Gemini API request failed (code …)",
    raised for a non-429 client error and for a 429 once the retry budget
    is exhausted (the failure the spec taxonomy names `ServiceUnavailable`
    in the exhausted-budget case and `ServiceError` otherwise);
  * `geminiServerUnavailable` — line 154, "Gemini AI service is temporarily
    unavailable", raised when server errors exhaust the budget;
  * `geminiNetworkError` — line 159, raised for `OSError`, never retried. -/
inductive CallError where
  | geminiApiError (code : Nat)
  | geminiServerUnavailable
  | geminiNetworkError
deriving DecidableEq, Repr

/-- The loop body of `_call_with_retry`: `outcomes n` is the outcome of the
`generate_content` call on attempt index `n` (0-based).  Returns the final
result together with the chronological list of `time.sleep` delays; a sleep
is performed only after a retried failing attempt, so no delay ever
precedes the first attempt.  `attempt` and `delay` mirror the Python loop
variables (`delay` starts at `initial_delay` and doubles after each retried
attempt). -/
def callWithRetryLoop (outcomes : Nat → CallOutcome) (maxRetries : Nat)
    (attempt delay : Nat) : Except CallError String × List Nat :=
  match outcomes attempt with
  | .success t => (.ok t, [])
  | .clientError code =>
    if h : code = 429 ∧ attempt < maxRetries then
      let rest := callWithRetryLoop outcomes maxRetries (attempt + 1) (delay * 2)
      (rest.1, delay :: rest.2)
    else
      (.error (.geminiApiError code), [])
  | .serverError =>
    if h : attempt < maxRetries then
      let rest := callWithRetryLoop outcomes maxRetries (attempt + 1) (delay * 2)
      (rest.1, delay :: rest.2)
    else
      (.error .geminiServerUnavailable, [])
  | .osError => (.error .geminiNetworkError, [])
termination_by maxRetries - attempt
decreasing_by
  · omega
  · omega

/-- `_call_with_retry` with its default parameters
`max_retries = 5`, `initial_delay = 5.0`. -/
def callWithRetry (outcomes : Nat → CallOutcome) : Except CallError String × List Nat :=
  callWithRetryLoop outcomes 5 0 5

theorem callWithRetryLoop_success (outcomes : Nat → CallOutcome) (m a d : Nat)
    (t : String) (ho : outcomes a = .success t) :
    callWithRetryLoop outcomes m a d = (.ok t, []) := by
  rw [callWithRetryLoop, ho]

theorem callWithRetryLoop_429_retry (outcomes : Nat → CallOutcome) (m a d : Nat)
    (ho : outcomes a = .clientError 429) (ha : a < m) :
    callWithRetryLoop outcomes m a d =
      ((callWithRetryLoop outcomes m (a + 1) (d * 2)).1,
        d :: (callWithRetryLoop outcomes m (a + 1) (d * 2)).2) := by
  rw [callWithRetryLoop, ho]
  simp [ha]

theorem callWithRetryLoop_429_exhausted (outcomes : Nat → CallOutcome) (m a d : Nat)
    (ho : outcomes a = .clientError 429) (ha : ¬ a < m) :
    callWithRetryLoop outcomes m a d = (.error (.geminiApiError 429), []) := by
  rw [callWithRetryLoop, ho]
  simp [ha]

/-- C1: if attempts 1–3 hit a rate limit (429) and attempt 4 succeeds, the
call succeeds overall with exactly the backoff sleeps 5, 10, 20 between
consecutive attempts; and a call succeeding immediately sleeps not at all
(no delay precedes the first attempt). -/
theorem retry_429_three_times_then_success (outcomes : Nat → CallOutcome) (t : String)
    (h0 : outcomes 0 = .clientError 429) (h1 : outcomes 1 = .clientError 429)
    (h2 : outcomes 2 = .clientError 429) (h3 : outcomes 3 = .success t) :
    callWithRetry outcomes = (.ok t, [5, 10, 20]) ∧
    callWithRetry (fun _ => CallOutcome.success t) = (.ok t, []) := by
  constructor
  · unfold callWithRetry
    rw [callWithRetryLoop_429_retry outcomes 5 0 5 h0 (by omega),
      callWithRetryLoop_429_retry outcomes 5 1 10 h1 (by omega),
      callWithRetryLoop_429_retry outcomes 5 2 20 h2 (by omega),
      callWithRetryLoop_success outcomes 5 3 40 t h3]
  · unfold callWithRetry
    rw [callWithRetryLoop_success _ 5 0 5 t rfl]

theorem retry_429_three_times_then_success_witness :
    callWithRetry (fun n => if n < 3 then CallOutcome.clientError 429
      else CallOutcome.success "ok") = (.ok "ok", [5, 10, 20]) :=
  (retry_429_three_times_then_success _ "ok" rfl rfl rfl rfl).1

/-- C2: six consecutive rate-limit (429) outcomes exhaust the retry budget
(`max_retries = 5`): exactly five backoff sleeps (5, 10, 20, 40, 80) are
performed, no retry follows the sixth attempt, and the call fails with the
terminal `ConnectionError` raised in the `ClientError` branch — the
failure the spec taxonomy calls `ServiceUnavailable` for an exhausted
budget. -/
theorem retry_429_budget_exhausted (outcomes : Nat → CallOutcome)
    (h : ∀ i, i ≤ 5 → outcomes i = .clientError 429) :
    callWithRetry outcomes = (.error (.geminiApiError 429), [5, 10, 20, 40, 80]) := by
  unfold callWithRetry
  rw [callWithRetryLoop_429_retry outcomes 5 0 5 (h 0 (by omega)) (by omega),
    callWithRetryLoop_429_retry outcomes 5 1 10 (h 1 (by omega)) (by omega),
    callWithRetryLoop_429_retry outcomes 5 2 20 (h 2 (by omega)) (by omega),
    callWithRetryLoop_429_retry outcomes 5 3 40 (h 3 (by omega)) (by omega),
    callWithRetryLoop_429_retry outcomes 5 4 80 (h 4 (by omega)) (by omega),
    callWithRetryLoop_429_exhausted outcomes 5 5 160 (h 5 (by omega)) (by omega)]

theorem retry_429_budget_exhausted_witness :
    callWithRetry (fun _ => CallOutcome.clientError 429) =
      (.error (.geminiApiError 429), [5, 10, 20, 40, 80]) :=
  retry_429_budget_exhausted _ (fun _ _ => rfl)

/-! ### Python string primitives (strings modelled as `List Char`) -/

/-- Characters stripped by Python `str.strip()` (the ASCII whitespace
subset — space, tab, newline, carriage return, vertical tab, form feed —
which covers every string these claims touch). -/
def pyIsSpace (c : Char) : Bool :=
  c == ' ' || c == '\t' || c == '\n' || c == '\r' ||
    c == Char.ofNat 11 || c == Char.ofNat 12

/-- Python `str.lstrip()`. -/
def lstripChars (s : List Char) : List Char := s.dropWhile pyIsSpace

/-- Python `str.rstrip()`. -/
def rstripChars (s : List Char) : List Char := (s.reverse.dropWhile pyIsSpace).reverse

/-- Python `str.strip()`. -/
def pyStrip (s : List Char) : List Char := lstripChars (rstripChars s)

/-- The backtick character, code point 96. -/
def backquote : Char := Char.ofNat 96

/-- The markdown code-fence marker `` ``` ``. -/
def fence : List Char := [backquote, backquote, backquote]

/-- Python `s.split(sep, 1)[1]` for a one-character separator: the part of
`s` after the first occurrence of `sep`, or `none` when `sep` does not
occur — in which case `split` returns a one-element list and the `[1]`
index raises `IndexError`. -/
def splitOnceAfter (sep : Char) : List Char → Option (List Char)
  | [] => none
  | c :: cs => if c = sep then some cs else splitOnceAfter sep cs

/-- Helper for `beforeLast`: the part of `s` strictly after the first
occurrence of the (nonempty) pattern `pat`, or `none` when `pat` does not
occur in `s`. -/
def splitSuffixAfter (pat : List Char) : List Char → Option (List Char)
  | [] => none
  | c :: cs =>
    if pat.isPrefixOf (c :: cs) then some ((c :: cs).drop pat.length)
    else splitSuffixAfter pat cs

/-- Python `s.rsplit(pat, 1)[0]` for a nonempty `pat`: everything before
the last occurrence of `pat` in `s` (found by scanning the reversed string
for the reversed pattern), or all of `s` when `pat` does not occur —
Python `rsplit` then returns `[s]`, so `[0]` is the whole string. -/
def beforeLast (pat : List Char) (s : List Char) : List Char :=
  match splitSuffixAfter pat.reverse s.reverse with
  | some rest => rest.reverse
  | none => s

/-- The response post-processing shared by `GeminiFieldExtractor.extract`
(field_extractor.py lines 81–85), `CombinedExtractor.extract` (lines
242–246) and `ResumeExtractor.extract` (resume_extractor.py lines 74–79):
strip the text; when the result starts with a code fence, drop the first
line (`raw.split("\n", 1)[1]`), drop everything from the last fence marker
onward (`raw.rsplit("```", 1)[0]`), and strip again.  The `none` result
models the uncaught `IndexError` that `raw.split("\n", 1)[1]` raises when
the fenced text contains no newline — an exception outside the documented
`ValueError`/`ConnectionError` taxonomy. -/
def stripCodeFences (responseText : List Char) : Option (List Char) :=
  if fence.isPrefixOf (pyStrip responseText) then
    match splitOnceAfter '\n' (pyStrip responseText) with
    | none => none
    | some r1 => some (pyStrip (beforeLast fence r1))
  else
    some (pyStrip responseText)

theorem lstripChars_cons_nonspace (c : Char) (s : List Char)
    (hc : pyIsSpace c = false) : lstripChars (c :: s) = c :: s := by
  simp [lstripChars, List.dropWhile_cons, hc]

theorem rstripChars_append_nonspace (x : List Char) (c : Char)
    (hc : pyIsSpace c = false) : rstripChars (x ++ [c]) = x ++ [c] := by
  unfold rstripChars
  rw [List.reverse_append]
  simp [List.dropWhile_cons, hc]

theorem rstripChars_append_space (x : List Char) (c : Char)
    (hc : pyIsSpace c = true) : rstripChars (x ++ [c]) = rstripChars x := by
  unfold rstripChars
  rw [List.reverse_append]
  simp [List.dropWhile_cons, hc]

theorem pyStrip_append_newline (p : List Char) :
    pyStrip (p ++ ['\n']) = pyStrip p := by
  unfold pyStrip
  rw [rstripChars_append_space p '\n' rfl]

theorem pyStrip_bq_ends_bq (mid : List Char) :
    pyStrip (backquote :: mid ++ [backquote]) = backquote :: mid ++ [backquote] := by
  unfold pyStrip
  rw [show backquote :: mid ++ [backquote] = (backquote :: mid) ++ [backquote] from rfl,
    rstripChars_append_nonspace (backquote :: mid) backquote (by decide)]
  exact lstripChars_cons_nonspace backquote (mid ++ [backquote]) (by decide)

theorem splitOnceAfter_append (sep : Char) (a b : List Char) (h : sep ∉ a) :
    splitOnceAfter sep (a ++ sep :: b) = some b := by
  induction a with
  | nil => simp [splitOnceAfter]
  | cons x xs ih =>
    have hx : ¬ x = sep := fun e => h (by simp [e])
    rw [List.cons_append, splitOnceAfter, if_neg hx]
    exact ih (fun hm => h (List.mem_cons_of_mem _ hm))

theorem splitSuffixAfter_fence_head (r : List Char) :
    splitSuffixAfter fence (backquote :: backquote :: backquote :: r) = some r := by
  simp [splitSuffixAfter, fence, List.isPrefixOf]

theorem beforeLast_fence_tail (p : List Char) :
    beforeLast fence (p ++ '\n' :: fence) = p ++ ['\n'] := by
  unfold beforeLast
  have hrev : (p ++ '\n' :: fence).reverse =
      backquote :: backquote :: backquote :: '\n' :: p.reverse := by
    simp [fence]
  rw [show fence.reverse = fence from rfl, hrev, splitSuffixAfter_fence_head]
  simp

/-- C9: a non-empty response consisting of just the fence marker `` ``` ``
strips to text that starts with the fence but contains no newline, so the
fence-stripping step evaluates `raw.split("\n", 1)[1]` on a one-element
split and raises an uncategorized `IndexError` (modelled by `none`) rather
than any error of the documented taxonomy. -/
theorem fence_no_newline_uncaught :
    stripCodeFences fence = none ∧ fence ≠ [] ∧
      fence.isPrefixOf (pyStrip fence) = true ∧ '\n' ∉ pyStrip fence := by
  decide

/-- C3: wrapping a payload `p` in code-fence markup — a leading fence line
(any line starting with `` ``` ``, e.g. `` ```json ``) and a trailing
`` ``` `` marker — does not change the post-processed text: stripping drops
the first line and everything from the last fence marker onward, leaving
exactly the stripped unwrapped payload, so the subsequent JSON parse sees
identical input and produces an identical record. -/
theorem fence_wrapped_equals_unwrapped (header p : List Char)
    (hh : fence.isPrefixOf header = true) (hn : '\n' ∉ header)
    (hp : fence.isPrefixOf (pyStrip p) = false) :
    stripCodeFences (header ++ '\n' :: (p ++ '\n' :: fence)) = stripCodeFences p ∧
    stripCodeFences p = some (pyStrip p) := by
  have hunwrapped : stripCodeFences p = some (pyStrip p) := by
    unfold stripCodeFences
    rw [if_neg (by simp [hp])]
  refine ⟨?_, hunwrapped⟩
  obtain ⟨t, ht⟩ := List.isPrefixOf_iff_prefix.mp hh
  have hshape : header ++ '\n' :: (p ++ '\n' :: fence) =
      backquote ::
        (backquote :: backquote :: (t ++ '\n' :: (p ++ ['\n', backquote, backquote]))) ++
        [backquote] := by
    rw [← ht]
    simp [fence]
  have hstrip : pyStrip (header ++ '\n' :: (p ++ '\n' :: fence)) =
      header ++ '\n' :: (p ++ '\n' :: fence) := by
    rw [hshape]
    exact pyStrip_bq_ends_bq _
  have hpre : fence.isPrefixOf (header ++ '\n' :: (p ++ '\n' :: fence)) = true := by
    apply List.isPrefixOf_iff_prefix.mpr
    exact ⟨t ++ '\n' :: (p ++ '\n' :: fence), by rw [← ht]; simp⟩
  have hsplit : splitOnceAfter '\n' (header ++ '\n' :: (p ++ '\n' :: fence)) =
      some (p ++ '\n' :: fence) :=
    splitOnceAfter_append '\n' header _ hn
  have hwrapped : stripCodeFences (header ++ '\n' :: (p ++ '\n' :: fence)) =
      some (pyStrip p) := by
    unfold stripCodeFences
    rw [hstrip, if_pos hpre, hsplit]
    show some (pyStrip (beforeLast fence (p ++ '\n' :: fence))) = some (pyStrip p)
    rw [beforeLast_fence_tail, pyStrip_append_newline]
  rw [hwrapped, hunwrapped]

theorem fence_wrapped_equals_unwrapped_witness :
    stripCodeFences (("```json".data) ++ '\n' :: (("{ok}".data) ++ '\n' :: fence)) =
      stripCodeFences ("{ok}".data) ∧
    stripCodeFences ("{ok}".data) = some (pyStrip ("{ok}".data)) :=
  fence_wrapped_equals_unwrapped _ _ (by decide) (by decide) (by decide)

/-! ### Text verifier (`text_verifier.py`) -/

/-- `_RESUME_KEYWORDS` (text_verifier.py lines 9–15). -/
def resumeKeywords : List (List Char) :=
  [("experience".data), ("education".data), ("skills".data),
    ("summary".data), ("projects".data)]

/-- `_MIN_TEXT_LENGTH` (text_verifier.py line 17). -/
def minTextLength : Nat := 200

/-- Python `str.lower()` on the ASCII range (the only characters the
registry keys and keyword checks involve): map uppercase ASCII letters to
lowercase, leave everything else unchanged. -/
def pyToLower (s : List Char) : List Char :=
  s.map fun c => if 65 ≤ c.toNat ∧ c.toNat ≤ 90 then Char.ofNat (c.toNat + 32) else c

/-- Membership in Python `string.printable`: the ASCII graphic characters
and space (code points 32–126) plus tab, newline, carriage return,
vertical tab and form feed. -/
def pyPrintable (c : Char) : Bool :=
  (32 ≤ c.toNat && c.toNat ≤ 126) || c == '\t' || c == '\n' || c == '\r' ||
    c == Char.ofNat 11 || c == Char.ofNat 12

/-- `sum(c in string.printable for c in text)` (text_verifier.py line 100). -/
def printableCount (s : List Char) : Nat := (s.filter pyPrintable).length

/-- Python substring membership `pat in s`: does `pat` occur as a
contiguous substring of `s`? -/
def containsSub (pat : List Char) : List Char → Bool
  | [] => pat.isEmpty
  | c :: cs => pat.isPrefixOf (c :: cs) || containsSub pat cs

/-- `VerificationResult` (text_verifier.py lines 21–28): four independent
failure flags, each defaulting to false. -/
structure VerificationResult where
  is_empty : Bool := false
  too_short : Bool := false
  missing_keywords : Bool := false
  garbage_ratio_low : Bool := false
deriving DecidableEq, Repr

/-- `VerificationResult.passed` (lines 30–38): true when no flag is set. -/
def VerificationResult.passed (r : VerificationResult) : Bool :=
  !(r.is_empty || r.too_short || r.missing_keywords || r.garbage_ratio_low)

/-- `VerificationResult.issues` (lines 40–59): one message per set flag,
with the thresholds and keyword list formatted in as in the source. -/
def VerificationResult.issues (r : VerificationResult) : List (List Char) :=
  (if r.is_empty then [("Extracted text is empty".data)] else []) ++
  (if r.too_short then
    [("Extracted text is too short (< 200 characters)".data)] else []) ++
  (if r.missing_keywords then
    [(("None of the expected resume keywords found " ++
      "(experience, education, skills, summary, projects)").data)] else []) ++
  (if r.garbage_ratio_low then
    [("Printable-character ratio is below 80%".data)] else [])

/-- `TextVerifier.verify` (text_verifier.py lines 65–115).  The empty check
returns early; the other three checks all run.  The float comparison
`printable_count / max(len(text), 1) < 0.8` is modelled by the exact
comparison `5 * printable_count < 4 * max len 1`: the binary double nearest
0.8 lies above 4/5 by ≈ 4.4e-17, so the two tests agree for every text of
realistic length (a divergence needs a ratio within 5.6e-17 of 4/5, i.e.
more than 10^15 characters). -/
def verify (text : List Char) : VerificationResult :=
  if (pyStrip text).isEmpty then { is_empty := true }
  else
    { too_short := decide (text.length < minTextLength)
      missing_keywords := !(resumeKeywords.any (fun kw => containsSub kw (pyToLower text)))
      garbage_ratio_low := decide (5 * printableCount text < 4 * max text.length 1) }

/-- C6: text that is empty or whitespace-only after stripping
short-circuits verification: `is_empty` is set, the remaining three checks
are skipped, and their flags stay false. -/
theorem verify_empty_short_circuit (text : List Char)
    (h : (pyStrip text).isEmpty = true) :
    verify text = ⟨true, false, false, false⟩ := by
  unfold verify
  rw [if_pos h]

theorem verify_empty_short_circuit_witness :
    verify ("   ".data) = ⟨true, false, false, false⟩ ∧
    verify ([] : List Char) = ⟨true, false, false, false⟩ :=
  ⟨verify_empty_short_circuit _ (by decide), verify_empty_short_circuit _ (by decide)⟩

/-- C7: non-empty text shorter than 200 characters, containing none of the
resume keywords as a case-insensitive substring, with printable ratio
below 0.8, triggers all three non-empty flags simultaneously (the checks
are independent, not mutually exclusive); and the derived `passed` is true
exactly when no flag at all is set. -/
theorem verify_all_three_flags (text : List Char)
    (hne : (pyStrip text).isEmpty = false)
    (hlen : text.length < minTextLength)
    (hkw : ∀ kw ∈ resumeKeywords, containsSub kw (pyToLower text) = false)
    (hratio : 5 * printableCount text < 4 * max text.length 1) :
    verify text = ⟨false, true, true, true⟩ ∧
    (verify text).passed = false ∧
    (∀ r : VerificationResult, r.passed = true ↔
      r.is_empty = false ∧ r.too_short = false ∧
      r.missing_keywords = false ∧ r.garbage_ratio_low = false) := by
  have hany : resumeKeywords.any (fun kw => containsSub kw (pyToLower text)) = false := by
    simp only [List.any_eq_false]
    intro kw hmem
    simp [hkw kw hmem]
  have hv : verify text = ⟨false, true, true, true⟩ := by
    unfold verify
    rw [if_neg (by simp [hne])]
    simp [hany, hlen, hratio]
  refine ⟨hv, ?_, ?_⟩
  · rw [hv]
    rfl
  · intro r
    cases r with
    | mk a b c d =>
      cases a <;> cases b <;> cases c <;> cases d <;> simp [VerificationResult.passed]

theorem verify_all_three_flags_witness :
    verify ('a' :: List.replicate 4 (Char.ofNat 0)) = ⟨false, true, true, true⟩ :=
  (verify_all_three_flags _ (by decide) (by decide) (by decide) (by decide)).1

/-! ### File dispatch (`file_parser.py`) -/

/-- The parser classes that register themselves in `_registry`:
`PDFParser` (pdf_parser.py line 11) and `WordParser` (word_parser.py
line 14). -/
inductive ParserKind where
  | pdf
  | word
deriving DecidableEq, Repr

/-- `_registry` as populated by `__init_subclass__` when file_parser.py
line 56 imports pdf_parser then word_parser: ".pdf" registers first,
then ".docx". -/
def registry : List (List Char × ParserKind) :=
  [((".pdf".data), ParserKind.pdf), ((".docx".data), ParserKind.word)]

/-- `_registry.get(suffix)` (file_parser.py line 65). -/
def registryLookup (suffix : List Char) : Option ParserKind :=
  (registry.find? (fun e => e.1 == suffix)).map Prod.snd

/-- Lexicographic code-point order on strings, as Python `sorted` compares
`str` values. -/
def charListLe (a b : List Char) : Bool :=
  match a, b with
  | [], _ => true
  | _ :: _, [] => false
  | x :: xs, y :: ys => if x = y then charListLe xs ys else decide (x < y)

def insertSorted (x : List Char) : List (List Char) → List (List Char)
  | [] => [x]
  | y :: ys => if charListLe x y then x :: y :: ys else y :: insertSorted x ys

/-- Python `sorted` on a list of strings (insertion sort by
`charListLe`). -/
def sortCharLists (l : List (List Char)) : List (List Char) :=
  l.foldr insertSorted []

/-- `", ".join(sorted(_registry.keys()))` (file_parser.py line 67). -/
def supportedTypes : List Char :=
  List.intercalate (", ".data) (sortCharLists (registry.map Prod.fst))

/-- The exceptions `FileParser.parse_resume` raises, one constructor per
raise site, carrying the variable parts formatted into the message:
  * `fileNotFound` — line 62, `FileNotFoundError`;
  * `unsupportedType suffix supported` — lines 66–70, `ValueError` whose
    message is "Unsupported file type: {suffix}. Supported types:
    {supported}";
  * `verificationFailed issues` — lines 77–84, `ValueError` carrying
    `"; ".join(result.issues)`. -/
inductive ParseError where
  | fileNotFound
  | unsupportedType (suffix : List Char) (supported : List Char)
  | verificationFailed (issues : List Char)
deriving DecidableEq, Repr

/-- `"; ".join(result.issues)` (file_parser.py line 78). -/
def joinIssues (r : VerificationResult) : List Char :=
  List.intercalate ("; ".data) r.issues

/-- Lines 72–86 of file_parser.py, after a parser class has been selected
and run: verify the extracted text, return it when verification passes,
raise `ValueError` with the joined issues otherwise. -/
def verifyGate (text : List Char) : Except ParseError (List Char) :=
  if (verify text).passed then .ok text
  else .error (.verificationFailed (joinIssues (verify text)))

/-- `FileParser.parse_resume` (file_parser.py lines 39–86).  `pathExists`
models `file_path.exists()`, `suffix` models `file_path.suffix`, and
`parseOutput k` models `parser_cls().parse(file_path)` for the selected
parser class `k` (the format-specific extractors are external
collaborators). -/
def parseResume (pathExists : Bool) (suffix : List Char)
    (parseOutput : ParserKind → List Char) : Except ParseError (List Char) :=
  if !pathExists then .error .fileNotFound
  else
    match registryLookup (pyToLower suffix) with
    | none => .error (.unsupportedType (pyToLower suffix) supportedTypes)
    | some k => verifyGate (parseOutput k)

/-- C5: for an existing file, `parse_resume` dispatches on the lower-cased
extension against the registry: a registered extension routes to exactly
the parser registered for it (the rest of the pipeline runs on that
parser output), while an unregistered extension fails with the
`ValueError` whose message lists the full supported set ".docx, .pdf"
(all registered extensions, sorted). -/
theorem parse_resume_dispatch (suffix : List Char)
    (parseOutput : ParserKind → List Char) :
    (∀ k, registryLookup (pyToLower suffix) = some k →
      parseResume true suffix parseOutput = verifyGate (parseOutput k)) ∧
    (registryLookup (pyToLower suffix) = none →
      parseResume true suffix parseOutput =
        .error (.unsupportedType (pyToLower suffix) (".docx, .pdf".data))) ∧
    supportedTypes = (".docx, .pdf".data) ∧
    registryLookup (".pdf".data) = some ParserKind.pdf ∧
    registryLookup (".docx".data) = some ParserKind.word := by
  refine ⟨?_, ?_, by decide, by decide, by decide⟩
  · intro k hk
    simp [parseResume, hk]
  · intro hk
    simp [parseResume, hk]
    decide

theorem parse_resume_dispatch_witness :
    parseResume true (".PDF".data) (fun _ => ("x".data)) = verifyGate ("x".data) :=
  (parse_resume_dispatch (".PDF".data) (fun _ => ("x".data))).1 ParserKind.pdf (by decide)

/-- C8: `parse_resume` verifies extracted text inside the dispatcher
itself: every string it returns successfully passes verification, and
when any verification flag is triggered it raises a `ValueError` carrying
all triggered issues joined into one message instead of returning the
text. -/
theorem parse_resume_returns_verified_text (suffix : List Char)
    (parseOutput : ParserKind → List Char) :
    (∀ pathExists text, parseResume pathExists suffix parseOutput = .ok text →
      (verify text).passed = true) ∧
    (∀ k, registryLookup (pyToLower suffix) = some k →
      (verify (parseOutput k)).passed = false →
      parseResume true suffix parseOutput =
        .error (.verificationFailed (joinIssues (verify (parseOutput k))))) := by
  constructor
  · intro pe text h
    cases pe with
    | false => simp [parseResume] at h
    | true =>
      simp only [parseResume, Bool.not_true, Bool.false_eq_true, if_false] at h
      cases hreg : registryLookup (pyToLower suffix) with
      | none => rw [hreg] at h; simp at h
      | some k =>
        rw [hreg] at h
        simp only [verifyGate] at h
        cases hp : (verify (parseOutput k)).passed with
        | true =>
          rw [if_pos hp] at h
          injection h with h1
          rw [← h1]
          exact hp
        | false =>
          rw [if_neg (by simp [hp])] at h
          exact absurd h (by simp)
  · intro k hk hfail
    simp [parseResume, verifyGate, hk, hfail]

/-- A 220-character text that passes every verification check. -/
def goodResumeText : List Char := (List.replicate 20 ("experience ".data)).flatten

set_option maxRecDepth 8192 in
theorem parse_resume_returns_verified_text_witness :
    (verify goodResumeText).passed = true ∧
    parseResume true (".pdf".data) (fun _ => ("abc".data)) =
      .error (.verificationFailed (joinIssues (verify ("abc".data)))) :=
  ⟨(parse_resume_returns_verified_text (".pdf".data) (fun _ => goodResumeText)).1 true
      goodResumeText rfl,
    (parse_resume_returns_verified_text (".pdf".data) (fun _ => ("abc".data))).2
      ParserKind.pdf (by decide) (by decide)⟩

/-! ### JSON values, key validation and defaulting
(`field_extractor.py` `CombinedExtractor.extract`,
`resume_extractor.py` `ResumeExtractor.extract`) -/

/-- A parsed JSON value as produced by `json.loads`; an object is a list
of key/value pairs with unique keys. -/
inductive JValue where
  | jnull
  | jbool (b : Bool)
  | jnum (n : Int)
  | jstr (s : String)
  | jarr (xs : List JValue)
  | jobj (fields : List (String × JValue))

/-- `list(data.keys())` for a decoded JSON object. -/
def objKeys (fields : List (String × JValue)) : List String := fields.map Prod.fst

/-- `expected_keys = {"name", "email", "skills"}` (field_extractor.py
line 259), enumerated in the order Python `sorted(missing)` would list
them ("email" < "name" < "skills"), so that filtering this list computes
`sorted(expected_keys - set(data.keys()))` directly. -/
def requiredKeys : List String := ["email", "name", "skills"]

/-- The key validation tail of `CombinedExtractor.extract`
(field_extractor.py lines 259–272): compute
`missing = expected_keys - set(data.keys())`; when non-empty raise
`ValueError` listing `', '.join(sorted(missing))`, otherwise return
`data` unchanged. -/
def combinedValidate (fields : List (String × JValue)) :
    Except (List String) (List (String × JValue)) :=
  let missing := requiredKeys.filter (fun k => decide (k ∉ objKeys fields))
  if missing.isEmpty then .ok fields else .error missing

/-- C4: combined extraction returns the validated mapping unchanged
exactly when all of name, email and skills are present, and otherwise
fails with the `ValueError` listing exactly the required keys missing
from the response (in sorted order). -/
theorem combined_extract_validates_keys (fields : List (String × JValue)) :
    (combinedValidate fields = .ok fields ↔ ∀ k ∈ requiredKeys, k ∈ objKeys fields) ∧
    (∀ ms, combinedValidate fields = .error ms →
      ∀ k, k ∈ ms ↔ (k ∈ requiredKeys ∧ k ∉ objKeys fields)) := by
  unfold combinedValidate
  by_cases hm : (requiredKeys.filter (fun k => decide (k ∉ objKeys fields))).isEmpty = true
  · rw [if_pos hm]
    have hnil := List.isEmpty_iff.mp hm
    constructor
    · constructor
      · intro _ k hk
        by_contra hnk
        have hkmem : k ∈ requiredKeys.filter (fun k => decide (k ∉ objKeys fields)) := by
          rw [List.mem_filter]
          exact ⟨hk, by simp [hnk]⟩
        rw [hnil] at hkmem
        exact absurd hkmem (List.not_mem_nil k)
      · intro _
        rfl
    · intro ms hms
      exact absurd hms (by simp)
  · rw [if_neg hm]
    constructor
    · constructor
      · intro h
        exact absurd h (by simp)
      · intro hall
        exfalso
        apply hm
        rw [List.isEmpty_iff, List.filter_eq_nil_iff]
        intro k hk
        simp [hall k hk]
    · intro ms hms k
      injection hms with hms1
      rw [← hms1, List.mem_filter]
      simp

theorem combined_extract_validates_keys_witness :
    ("email" ∈ ["email"] ↔
      ("email" ∈ requiredKeys ∧
        "email" ∉ objKeys [("name", JValue.jstr "Jane Doe"),
          ("skills", JValue.jarr [])])) :=
  (combined_extract_validates_keys
    [("name", JValue.jstr "Jane Doe"), ("skills", JValue.jarr [])]).2
    ["email"] rfl "email"

/-- `dict.get(key, default)` on a decoded JSON object. -/
def dictGet (fields : List (String × JValue)) (key : String) (default : JValue) :
    JValue :=
  match fields.find? (fun kv => kv.1 == key) with
  | some kv => kv.2
  | none => default

/-- `CandidateInfo` (resume_extractor.py lines 12–24).  Python performs no
type check on the values `dict.get` returns, so each field holds whatever
JSON value the response carried. -/
structure CandidateInfo where
  name : JValue
  email : JValue
  skills : JValue

/-- The record assembly tail of `ResumeExtractor.extract`
(resume_extractor.py lines 88–92): build a `CandidateInfo` from the
decoded object with `data.get("name", "")`, `data.get("email", "")` and
`data.get("skills", [])`.  This is the combined-mode variant
`ResumeParserFramework.parse_resume` delegates to; being a total
function, it never raises for missing keys. -/
def resumeExtract (fields : List (String × JValue)) : CandidateInfo :=
  { name := dictGet fields "name" (.jstr "")
    email := dictGet fields "email" (.jstr "")
    skills := dictGet fields "skills" (.jarr []) }

/-- C10: `ResumeExtractor.extract` never fails on missing keys: each of
name, email, skills absent from the decoded object is replaced by its
default (empty string, empty string, empty list respectively), and a
present key contributes its value, so the returned record always has all
three fields populated. -/
theorem resume_extract_defaults (fields : List (String × JValue)) :
    ("name" ∉ objKeys fields → (resumeExtract fields).name = .jstr "") ∧
    ("email" ∉ objKeys fields → (resumeExtract fields).email = .jstr "") ∧
    ("skills" ∉ objKeys fields → (resumeExtract fields).skills = .jarr []) ∧
    (∀ kv ∈ fields, kv.1 = "name" →
      (resumeExtract fields).name = dictGet fields "name" (.jstr "")) := by
  have habsent : ∀ key : String, key ∉ objKeys fields →
      fields.find? (fun kv => kv.1 == key) = none := by
    intro key hkey
    rw [List.find?_eq_none]
    intro kv hkv
    simp only [beq_iff_eq]
    intro he
    exact hkey (he ▸ List.mem_map_of_mem Prod.fst hkv)
  refine ⟨?_, ?_, ?_, fun _ _ _ => rfl⟩
  · intro h
    simp [resumeExtract, dictGet, habsent "name" h]
  · intro h
    simp [resumeExtract, dictGet, habsent "email" h]
  · intro h
    simp [resumeExtract, dictGet, habsent "skills" h]

theorem resume_extract_defaults_witness :
    (resumeExtract []).name = .jstr "" ∧
    (resumeExtract []).email = .jstr "" ∧
    (resumeExtract []).skills = .jarr [] :=
  ⟨(resume_extract_defaults []).1 (by simp [objKeys]),
    (resume_extract_defaults []).2.1 (by simp [objKeys]),
    (resume_extract_defaults []).2.2.1 (by simp [objKeys])⟩
